import Mathlib

/-!
Verification of the `aio-flowdock` client (`src/flowdock.py`) against its
natural-language specification.

The Python module defines two classes:

* `Session` — an authenticated request client over HTTP
  (`request`, `get`/`post`/`put`/`delete`, and payload-shaping wrappers
  such as `message` and `thread_message`);
* `EventStream` — a server-push (SSE) connection scoped to a list of flows,
  re-emitting events through a pyee `AsyncIOEventEmitter`.

We shallowly embed the relevant behaviour: HTTP transport results, response
and option records, the state held by an `EventStream` object, and the decode
loop `_process_data`, all as executable Lean definitions translated from the
source.
-/

namespace Flowdock

/-- Arbitrary JSON values, as produced by `json.loads` / `resp.json()`. -/
inductive Json where
  | null
  | bool (b : Bool)
  | num (n : Int)
  | str (s : String)
  | arr (elems : List Json)
  | obj (fields : List (String × Json))

/-- A Python mapping with string keys and JSON-like values, in insertion
order (the shape of the `data` dictionaries the client builds). -/
def Obj := List (String × Json)

/-- The Python exception values that arise in `flowdock.py`. -/
inductive PyError where
  /-- `ValueError`, raised by `Session.request` for HTTP status >= 300
  with message `"[status] text"`. -/
  | valueError (msg : String)
  /-- `aiohttp.ClientConnectionError`: a network-level transport failure. -/
  | connectionError (msg : String)
  /-- `AttributeError`: attribute lookup failed on an object. -/
  | attributeError (msg : String)
  /-- `json.JSONDecodeError` from `json.loads` on malformed payloads. -/
  | jsonDecodeError (msg : String)
  /-- `TypeError`, e.g. from calling `dict` with two positional arguments. -/
  | typeError (msg : String)
deriving DecidableEq

/-- An HTTP response as observed by `Session.request`: status code, raw body
text (`await resp.text()`), and the result of `await resp.json()`. -/
structure HttpResponse where
  status : Nat
  text : String
  body : Except String Json

/-- The outcome of `await self.session.request(...)`: either a response or a
network-level transport failure (`ClientConnectionError` raised). -/
inductive TransportResult where
  | ok (resp : HttpResponse)
  | netError (msg : String)

/-- The keyword options `Session.request` passes to the underlying
`session.request` call: headers plus either `params=data` or `json=data`. -/
structure ReqOptions where
  headers : List (String × String)
  params : Option Obj
  json : Option Obj

/-- How a `Session.request` call resolves for the awaiting caller. -/
inductive RequestResult where
  /-- Normal return: `return await resp.json(), resp`. -/
  | ok (body : Json) (resp : HttpResponse)
  /-- The `return e` path of the except-block (error returned as the value). -/
  | returnedError (e : PyError)
  /-- An exception escapes `Session.request` to the awaiting caller. -/
  | raised (e : PyError)

/-- Everything observable about one `Session.request` call: the options built
for the transport, the value/exception the awaiting caller sees, and the
`(category, payload)` notifications emitted on the way. -/
structure RequestTrace where
  options : ReqOptions
  result : RequestResult
  emitted : List (String × PyError)

/-- Python `str.lower()` (character-wise lowercasing). -/
def pyLower (s : String) : String :=
  String.mk (s.data.map Char.toLower)

namespace Session

/-- `Session.request` builds `options = dict(headers=header)` and then adds
`params=data` when `method.lower() == "get"`, else `json=data`; `data` is
defaulted to the empty dict first (`data = data or dict()`). -/
def requestOptions (auth method : String) (data : Option Obj) : ReqOptions :=
  let data := data.getD []
  let header := [("Authorization", auth),
                 ("Accept", "application/json"),
                 ("Content-Type", "application/json")]
  if pyLower method == "get" then
    { headers := header, params := some data, json := none }
  else
    { headers := header, params := none, json := some data }

/-- The `ValueError` raised for a response with status >= 300:
`ValueError("[%s] %s" % (resp.status, await resp.text()))`. -/
def statusError (resp : HttpResponse) : PyError :=
  .valueError ("[" ++ toString resp.status ++ "] " ++ resp.text)

/-- Outcome of the try-block body of `Session.request`. -/
inductive TryOutcome where
  | ok (body : Json) (resp : HttpResponse)
  | exc (e : PyError)

/-- The try-block of `Session.request`: await the transport (which may raise
a connection error), raise `ValueError` when `resp.status >= 300`, otherwise
return the parsed JSON body paired with the response. -/
def tryBody (t : TransportResult) : TryOutcome :=
  match t with
  | .netError m => .exc (.connectionError m)
  | .ok resp =>
    if 300 ≤ resp.status then .exc (statusError resp)
    else
      match resp.body with
      | .ok j => .ok j resp
      | .error m => .exc (.jsonDecodeError m)

/-- `Session` is a plain class (it does not inherit from an event emitter and
defines no `emit` method), so the attribute lookup `self.emit` in the
except-block raises `AttributeError`. -/
def emitAttributeError : PyError :=
  .attributeError "Session object has no attribute emit"

/-- The except-block `self.emit("error", e); return e` of `Session.request`:
the `self.emit` lookup raises `AttributeError` before anything is emitted,
so `return e` is never reached and the new exception escapes the call. -/
def handleRequestError (_ : PyError) : RequestResult × List (String × PyError) :=
  (.raised emitAttributeError, [])

/-- The try/except of `Session.request`: run the try-block and, on any
exception, the except-block. Yields the caller-visible result and the
notifications emitted. -/
def requestRun (t : TransportResult) : RequestResult × List (String × PyError) :=
  match tryBody t with
  | .ok j resp => (.ok j resp, [])
  | .exc e => handleRequestError e

/-- `Session.request(method, path, data=None)`: defaults the data, builds the
transport options, runs the try-block, and on any exception runs the
except-block. `_path` only feeds URL joining, which we do not model. -/
def request (auth method _path : String) (data : Option Obj)
    (t : TransportResult) : RequestTrace :=
  { options := requestOptions auth method data,
    result := (requestRun t).1,
    emitted := (requestRun t).2 }

/-- `Session.post(path, data)` = `request("post", path, data)`. -/
def post (auth path : String) (data : Obj) (t : TransportResult) : RequestTrace :=
  request auth "post" path (some data) t

/-- `Session.get(path, data)` = `request("get", path, data)`. -/
def get (auth path : String) (data : Obj) (t : TransportResult) : RequestTrace :=
  request auth "get" path (some data) t

/-- `Session.put(path, data)` = `request("put", path, data)`. -/
def put (auth path : String) (data : Obj) (t : TransportResult) : RequestTrace :=
  request auth "put" path (some data) t

/-- `Session.delete(path)` = `request("delete", path)` — no `data` argument,
so `request` defaults it to the empty dict. -/
def delete (auth path : String) (t : TransportResult) : RequestTrace :=
  request auth "delete" path none t

/-- The action a payload-shaping wrapper delegates to after building its
payload. -/
inductive CallAction where
  | post (path : String) (data : Obj)
  | put (path : String) (data : Obj)

/-- A wrapper either reaches its delegated request or raises before issuing
it. -/
def WrapperResult := Except PyError CallAction

/-- `Session.message(flow_id, msg, tags=None)`: defaults the tags, builds
`dict(flow=flow_id, event='message', content=msg, tags=tags)` and delegates
to `send('/messages', data)`, i.e. `post`. -/
def message (flow_id msg : String) (tags : Option (List String)) : WrapperResult :=
  let tags := tags.getD []
  .ok (.post "/messages"
    [("flow", .str flow_id), ("event", .str "message"),
     ("content", .str msg), ("tags", .arr (tags.map .str))])

/-- `Session.thread_message(flow_id, thread_id, msg, tags=None)`: the source
line is `data = dict(flow_id, thread_id, event='message', content=msg,
tags=tags)`, which passes `flow_id` and `thread_id` as *positional*
arguments to `dict`. `dict` accepts at most one positional argument, so the
call raises `TypeError` before `self.send("/messages", data)` is reached. -/
def thread_message (_flow_id _thread_id _msg : String)
    (_tags : Option (List String)) : WrapperResult :=
  .error (.typeError "dict expected at most 1 argument, got 2")

end Session

/-- `str.join`: `sep.join(xs)` for a list of strings. -/
def strJoin (sep : String) : List String → String
  | [] => ""
  | [x] => x
  | x :: y :: xs => x ++ sep ++ strJoin sep (y :: xs)

/-- Python `dict.update` on association lists with distinct keys: keys of
`base` keep their position (values overridden by `upd` where present), and
entries of `upd` whose key is absent from `base` are appended in order. -/
def dictUpdate (base upd : List (String × String)) : List (String × String) :=
  (base.map fun kv =>
    match upd.lookup kv.1 with
    | some v => (kv.1, v)
    | none => kv)
  ++ upd.filter fun kv => (base.lookup kv.1).isNone

/-- The `params`/`headers` mapping returned by `EventStream._options`. -/
structure StreamOptions where
  params : List (String × String)
  headers : List (String × String)
deriving DecidableEq

/-- The state an `EventStream` object holds (the fields that drive its
behaviour): `_evt` is the nullable `EventSource` handle, `auth` the encoded
token, `flows` the channel set, `params` the caller-supplied options. -/
structure EventStream where
  evt : Option Unit
  auth : String
  flows : List String
  params : List (String × String)
deriving DecidableEq

namespace EventStream

/-- `EventStream._options()`: `qs = dict(filter=",".join(self.flows))` then
`qs.update(self.params)`; the headers carry only the authorization token. -/
def streamOptions (s : EventStream) : StreamOptions :=
  { params := dictUpdate [("filter", strJoin "," s.flows)] s.params,
    headers := [("Authorization", s.auth)] }

/-- `retry = 0 if retry < 0 else retry` in `EventStream.connect`. -/
def clampRetry (retry : Int) : Int :=
  if retry < 0 then 0 else retry

/-- What one `connect()` call did: nothing (early return), or a transport
handshake with these options and retry budget, starting the decode loop. -/
inductive ConnectEffect where
  | noop
  | handshake (opts : StreamOptions) (retry : Int)
deriving DecidableEq

/-- `EventStream.connect(retry=3)`: returns immediately when `self._evt` is
not `None`; otherwise constructs the `EventSource` with `**self._options()`,
stores it in `self._evt`, clamps the retry budget, awaits the handshake and
schedules the `_process_data` decode loop. -/
def connect (s : EventStream) (retry : Int) : EventStream × ConnectEffect :=
  match s.evt with
  | some _ => (s, .noop)
  | none => ({ s with evt := some () }, .handshake s.streamOptions (clampRetry retry))

/-- `EventStream.end()` (written `end'` since `end` is reserved in Lean):
when `self._evt` is not `None`, close it and set `self._evt = None`;
otherwise do nothing. -/
def end' (s : EventStream) : EventStream :=
  match s.evt with
  | some _ => { s with evt := none }
  | none => s

end EventStream

namespace Session

/-- The `flows` argument of `Session.stream`: either a single channel
identifier or a list (`flows = [flows] if not isinstance(flows, list) else
flows`). -/
inductive FlowsArg where
  | single (f : String)
  | list (fs : List String)

/-- `Session.stream(flows, options=None)`: defaults the options, wraps a
non-list `flows` into a one-element list, and constructs an `EventStream`
with the session's auth token; no handshake is attempted (`_evt` starts as
`None`). -/
def stream (auth : String) (flows : FlowsArg)
    (options : Option (List (String × String))) : EventStream :=
  let options := options.getD []
  let flows := match flows with
    | .single f => [f]
    | .list fs => fs
  { evt := none, auth := auth, flows := flows, params := options }

end Session

/-- A raw server-push (SSE) event as yielded by the `EventSource` iterator;
only its `data` payload feeds the decode loop. -/
structure SseEvent where
  data : String
deriving DecidableEq

/-- A notification emitted by the decode loop `_process_data`. -/
inductive StreamNote where
  | rawdata (evt : SseEvent)
  | message (msg : Json)
  | disconnected (e : PyError)
  | clientError (e : PyError)

/-- Whether a note is a `clientError` notification. -/
def StreamNote.isClientError : StreamNote → Bool
  | .clientError _ => true
  | _ => false

/-- Whether a note is a `message` notification. -/
def StreamNote.isMessage : StreamNote → Bool
  | .message _ => true
  | _ => false

/-- Whether a note is a `rawdata` notification. -/
def StreamNote.isRawdata : StreamNote → Bool
  | .rawdata _ => true
  | _ => false

/-- How the event-source iteration itself ends once the listed events are
exhausted: cleanly, or by raising `ClientConnectionError`. -/
inductive StreamEnd where
  | normal
  | connError (msg : String)

/-- The two except-clauses of `_process_data`: `ClientConnectionError`
emits `disconnected`, any other exception emits `clientError`. -/
def handleLoopExc (e : PyError) : StreamNote :=
  match e with
  | .connectionError m => .disconnected (.connectionError m)
  | ex => .clientError ex

/-- The decode loop `_process_data`, run over the finite trace of events the
transport delivers, with `loads` standing for `json.loads`. For each event it
first emits `rawdata` with the raw event, then parses `evt.data`; on success
it emits `message` with the parsed value and continues, while any exception
(a parse failure, or `ClientConnectionError` from the iterator once the
events run out) leaves the `async for` and reaches an except-clause, ending
the coroutine. The returned list is every notification emitted, in order. -/
def processData (loads : String → Except PyError Json) :
    List SseEvent → StreamEnd → List StreamNote
  | [], .normal => []
  | [], .connError m => [handleLoopExc (.connectionError m)]
  | e :: rest, fin =>
    .rawdata e ::
      match loads e.data with
      | .ok j => .message j :: processData loads rest fin
      | .error ex => [handleLoopExc ex]

/-- The notifications the loop emits for a prefix of events that all parse:
`rawdata` followed by `message` for each. -/
def goodNotes (loads : String → Except PyError Json) :
    List SseEvent → List StreamNote
  | [] => []
  | e :: es =>
    .rawdata e ::
      (match loads e.data with
       | .ok j => [.message j]
       | .error _ => []) ++ goodNotes loads es

/-- A concrete stand-in for `json.loads` used by witnesses: parses only the
literal text of a couple of tiny documents. -/
def demoLoads (s : String) : Except PyError Json :=
  if s = "[]" then .ok (.arr [])
  else if s = "1" then .ok (.num 1)
  else .error (.jsonDecodeError s)

/-- A concrete `EventStream` state used by witnesses and counterexamples. -/
def demoStream : EventStream :=
  { evt := none, auth := "Basic abc", flows := ["f1", "f2"], params := [] }

/-! ## Helper lemmas -/

/-- `processData` over a prefix of events that all parse emits the
`rawdata`/`message` pairs of the prefix and then continues on the rest. -/
theorem processData_append_valid (loads : String → Except PyError Json)
    (pre rest : List SseEvent) (fin : StreamEnd)
    (h : ∀ p ∈ pre, ∃ j, loads p.data = .ok j) :
    processData loads (pre ++ rest) fin
      = goodNotes loads pre ++ processData loads rest fin := by
  induction pre with
  | nil => simp [goodNotes]
  | cons e es ih =>
    obtain ⟨j, hj⟩ := h e (by simp)
    simp [processData, goodNotes, hj, ih (fun p hp => h p (by simp [hp]))]

/-- `goodNotes` never contains a `clientError` notification. -/
theorem goodNotes_not_clientError (loads : String → Except PyError Json)
    (events : List SseEvent) :
    ∀ n ∈ goodNotes loads events, n.isClientError = false := by
  induction events with
  | nil => intro n hn; simp [goodNotes] at hn
  | cons e es ih =>
    intro n hn
    cases hle : loads e.data with
    | ok j =>
      simp only [goodNotes, hle, List.cons_append, List.nil_append,
        List.mem_cons] at hn
      rcases hn with h | h | h
      · simp [h, StreamNote.isClientError]
      · simp [h, StreamNote.isClientError]
      · exact ih n h
    | error ex =>
      simp only [goodNotes, hle, List.nil_append, List.singleton_append,
        List.mem_cons] at hn
      rcases hn with h | h
      · simp [h, StreamNote.isClientError]
      · exact ih n h

/-! ## Claims -/

/-- C1 (code_bug): the spec promises dual delivery — a failed request is both
returned to the awaiting caller and published as an `error` notification.
In the code, the except-block of `Session.request` first evaluates
`self.emit("error", e)`, but `Session` is a plain class with no `emit`
method, so the lookup raises `AttributeError`: the call raises instead of
returning the failure, and nothing is ever published. Evaluated here at an
HTTP-status failure (300) and at a transport failure. -/
theorem c1_request_error_raises_attributeError :
    (Session.request "Basic abc" "post" "/messages" none
        (.ok { status := 300, text := "boom", body := .error "x" })).result
      = .raised Session.emitAttributeError ∧
    (Session.request "Basic abc" "post" "/messages" none
        (.ok { status := 300, text := "boom", body := .error "x" })).emitted
      = [] ∧
    (Session.request "Basic abc" "get" "/flows" none
        (.netError "connection refused")).result
      = .raised Session.emitAttributeError ∧
    (Session.request "Basic abc" "get" "/flows" none
        (.netError "connection refused")).emitted = [] :=
  ⟨rfl, rfl, rfl, rfl⟩

/-- C7 (code_bug): for a 404 response with body `nope`, the try-block does
construct the intended error carrying status and body text
(`ValueError("[404] nope")`), but the except-block's `self.emit` lookup then
raises `AttributeError`, so the caller observes that instead of an error
carrying the status code and body. -/
theorem c7_status_failure_loses_api_error :
    Session.tryBody (.ok { status := 404, text := "nope", body := .error "x" })
      = .exc (.valueError "[404] nope") ∧
    (Session.request "Basic abc" "get" "/flows" none
        (.ok { status := 404, text := "nope", body := .error "x" })).result
      = .raised Session.emitAttributeError :=
  ⟨rfl, rfl⟩

/-- C4 (code_bug): `thread_message` never reaches `post`: its payload line
passes `flow_id` and `thread_id` positionally to `dict`, raising `TypeError`
before any request is issued — in contrast to `message`, which builds its
payload and delegates to `post /messages`. -/
theorem c4_thread_message_raises_typeError :
    Session.thread_message "f" "t" "hello" none
      = Except.error (.typeError "dict expected at most 1 argument, got 2") ∧
    Session.message "f" "hello" none
      = Except.ok (.post "/messages"
          [("flow", .str "f"), ("event", .str "message"),
           ("content", .str "hello"), ("tags", .arr [])]) :=
  ⟨rfl, rfl⟩

/-- C2 counterexample: a caller-supplied `filter` option *does* override the
comma-joined channel set — `qs.update(self.params)` lets `params` win, so
for flows `["f1","f2"]` and caller option `filter=x` the sent filter is `x`,
not `f1,f2`. -/
theorem c2_filter_override_counterexample :
    (EventStream.streamOptions
        { evt := none, auth := "Basic abc", flows := ["f1", "f2"],
          params := [("filter", "x")] }).params.lookup "filter" = some "x" ∧
    strJoin "," ["f1", "f2"] = "f1,f2" ∧ ("x" : String) ≠ "f1,f2" := by
  refine ⟨rfl, rfl, ?_⟩
  decide

/-- C2 (amended): the connect-time query parameters map `filter` to the
comma-joined channel set whenever the caller's options carry no `filter`
entry; a caller-supplied `filter` entry overrides that value
(`dict.update` semantics). -/
theorem c2_filter_merge_amended (s : EventStream) :
    (s.params.lookup "filter" = none →
      s.streamOptions.params.lookup "filter" = some (strJoin "," s.flows)) ∧
    (∀ v, s.params.lookup "filter" = some v →
      s.streamOptions.params.lookup "filter" = some v) := by
  constructor
  · intro h
    simp [EventStream.streamOptions, dictUpdate, h, List.lookup]
  · intro v h
    simp [EventStream.streamOptions, dictUpdate, h, List.lookup]

/-- Witness for `c2_filter_merge_amended` at concrete streams: without a
caller `filter` option the sent filter is `f1,f2`; with `filter=x` it is
`x`. -/
theorem c2_filter_merge_amended_witness :
    (EventStream.streamOptions demoStream).params.lookup "filter"
      = some "f1,f2" ∧
    (EventStream.streamOptions
        { demoStream with params := [("filter", "x")] }).params.lookup "filter"
      = some "x" :=
  ⟨(c2_filter_merge_amended demoStream).1 rfl,
   (c2_filter_merge_amended { demoStream with params := [("filter", "x")] }).2
     "x" rfl⟩

/-- C3 counterexample: `Closed` is not terminal — after `connect()` then
`end()`, `_evt` is back to `None`, so a further `connect()` on the same
object performs a full new handshake and the object holds a live event
source again. -/
theorem c3_closed_not_terminal_counterexample :
    (((demoStream.connect 3).1.end').connect 3).2
      = EventStream.ConnectEffect.handshake demoStream.streamOptions 3 ∧
    (((demoStream.connect 3).1.end').connect 3).1.evt = some () :=
  ⟨rfl, rfl⟩

/-- C3 (amended): after `end()` on an open connection, the event-source
handle is cleared and a subsequent `connect()` performs a fresh handshake,
returning the same object to the open state — the object is reusable, not
terminal. -/
theorem c3_end_allows_reconnect (s : EventStream) (u : Unit)
    (h : s.evt = some u) (r : Int) :
    s.end'.evt = none ∧
    (s.end'.connect r).2
      = .handshake s.streamOptions (EventStream.clampRetry r) ∧
    (s.end'.connect r).1.evt = some () := by
  cases s with
  | mk evt auth flows params =>
    simp only at h
    subst h
    simp [EventStream.end', EventStream.connect, EventStream.streamOptions]

/-- Witness for `c3_end_allows_reconnect`: the open stream obtained by
connecting `demoStream` once. -/
theorem c3_end_allows_reconnect_witness :
    ((demoStream.connect 3).1.end').evt = none ∧
    (((demoStream.connect 3).1.end').connect 7).2
      = EventStream.ConnectEffect.handshake (demoStream.connect 3).1.streamOptions
          (EventStream.clampRetry 7) ∧
    (((demoStream.connect 3).1.end').connect 7).1.evt = some () :=
  c3_end_allows_reconnect (demoStream.connect 3).1 () rfl 7

/-- C9: from a never-connected stream, the first `connect` performs the
handshake (with the merged options and clamped retry budget) and a second
`connect` on the resulting object returns immediately: same state, no new
transport, no second decode loop. -/
theorem c9_second_connect_noop (s : EventStream) (h : s.evt = none)
    (r r2 : Int) :
    (s.connect r).2
      = .handshake s.streamOptions (EventStream.clampRetry r) ∧
    ((s.connect r).1).connect r2 = ((s.connect r).1, .noop) := by
  simp [EventStream.connect, h]

/-- Witness for `c9_second_connect_noop` at `demoStream`. -/
theorem c9_second_connect_noop_witness :
    (demoStream.connect 3).2
      = EventStream.ConnectEffect.handshake demoStream.streamOptions
          (EventStream.clampRetry 3) ∧
    ((demoStream.connect 3).1).connect 5
      = ((demoStream.connect 3).1, EventStream.ConnectEffect.noop) :=
  c9_second_connect_noop demoStream rfl 3 5

/-- C10: `Session.stream` with a single non-list identifier wraps it into a
one-element channel set, whose comma-join is the identifier itself (and with
default options the sent `filter` parameter equals it); the returned stream
holds no event source, so no handshake has been attempted. -/
theorem c10_stream_single_flow (auth f : String)
    (options : Option (List (String × String))) :
    (Session.stream auth (.single f) options).flows = [f] ∧
    strJoin "," (Session.stream auth (.single f) options).flows = f ∧
    (Session.stream auth (.single f) none).streamOptions.params.lookup "filter"
      = some f ∧
    (Session.stream auth (.single f) options).evt = none := by
  refine ⟨rfl, rfl, ?_, rfl⟩
  simp [Session.stream, EventStream.streamOptions, dictUpdate, strJoin,
    List.lookup]

/-- C6: a push event whose payload parses as `j` yields `rawdata` with the
raw event strictly before `message` with payload `j`, and the decode loop
continues with the remaining events. -/
theorem c6_valid_event_order (loads : String → Except PyError Json)
    (e : SseEvent) (rest : List SseEvent) (fin : StreamEnd) (j : Json)
    (h : loads e.data = .ok j) :
    processData loads (e :: rest) fin
      = .rawdata e :: .message j :: processData loads rest fin := by
  simp [processData, h]

/-- Witness for `c6_valid_event_order`: `demoLoads` parses `1`. -/
theorem c6_valid_event_order_witness :
    processData demoLoads (⟨"1"⟩ :: [⟨"[]"⟩]) .normal
      = .rawdata ⟨"1"⟩ :: .message (.num 1)
          :: processData demoLoads [⟨"[]"⟩] .normal :=
  c6_valid_event_order demoLoads ⟨"1"⟩ [⟨"[]"⟩] .normal (.num 1) rfl

/-- C5: after a well-formed prefix, a single event whose payload fails to
parse yields its `rawdata` followed by exactly one `clientError`; the loop
ends there, later events contribute nothing, and the whole trace contains
exactly one `clientError`. -/
theorem c5_malformed_event_fatal (loads : String → Except PyError Json)
    (pre : List SseEvent) (e : SseEvent) (rest : List SseEvent)
    (fin : StreamEnd) (m : String)
    (hpre : ∀ p ∈ pre, ∃ j, loads p.data = .ok j)
    (he : loads e.data = .error (.jsonDecodeError m)) :
    processData loads (pre ++ e :: rest) fin
      = goodNotes loads pre
          ++ [.rawdata e, .clientError (.jsonDecodeError m)] ∧
    (processData loads (pre ++ e :: rest) fin).countP
        (fun n => n.isClientError) = 1 := by
  have h1 : processData loads (pre ++ e :: rest) fin
      = goodNotes loads pre
          ++ [.rawdata e, .clientError (.jsonDecodeError m)] := by
    rw [processData_append_valid loads pre (e :: rest) fin hpre]
    simp [processData, he, handleLoopExc]
  have h2 : (goodNotes loads pre).countP (fun n => n.isClientError) = 0 := by
    rw [List.countP_eq_zero]
    intro n hn
    simp [goodNotes_not_clientError loads pre n hn]
  refine ⟨h1, ?_⟩
  rw [h1, List.countP_append, h2]
  simp [List.countP_cons, List.countP_nil, StreamNote.isClientError]

/-- Witness for `c5_malformed_event_fatal`: one good event, then the
malformed payload `oops`, then a further event that is never processed. -/
theorem c5_malformed_event_fatal_witness :
    processData demoLoads ([⟨"[]"⟩] ++ ⟨"oops"⟩ :: [⟨"1"⟩]) .normal
      = goodNotes demoLoads [⟨"[]"⟩]
          ++ [.rawdata ⟨"oops"⟩, .clientError (.jsonDecodeError "oops")] ∧
    (processData demoLoads ([⟨"[]"⟩] ++ ⟨"oops"⟩ :: [⟨"1"⟩]) .normal).countP
        (fun n => n.isClientError) = 1 :=
  c5_malformed_event_fatal demoLoads [⟨"[]"⟩] ⟨"oops"⟩ [⟨"1"⟩] .normal "oops"
    (by intro p hp
        simp only [List.mem_singleton] at hp
        subst hp
        exact ⟨.arr [], rfl⟩)
    rfl

/-- C8 counterexample: a `delete` request does not go out bodyless — the
data defaults to the empty dict and, the method not being `get`, it is
passed as `json=data`: an empty JSON object body. -/
theorem c8_delete_body_counterexample :
    (Session.delete "Basic abc" "/x"
        (.ok { status := 200, text := "", body := .ok .null })).options.json
      = some [] ∧
    (Session.delete "Basic abc" "/x"
        (.ok { status := 200, text := "", body := .ok .null })).options.json
      ≠ none := by
  have h1 : (Session.delete "Basic abc" "/x"
      (.ok { status := 200, text := "", body := .ok .null })).options.json
      = some [] := rfl
  refine ⟨h1, ?_⟩
  rw [h1]
  simp

/-- C8 (amended): `get` sends the body mapping as query parameters, `post`
and `put` send it as a JSON body, and `delete` — whose body defaults to the
empty mapping — also sends a JSON body, namely the empty object. -/
theorem c8_serialization_amended (auth path : String) (data : Obj)
    (t : TransportResult) :
    (Session.get auth path data t).options.params = some data ∧
    (Session.get auth path data t).options.json = none ∧
    (Session.post auth path data t).options.json = some data ∧
    (Session.post auth path data t).options.params = none ∧
    (Session.put auth path data t).options.json = some data ∧
    (Session.put auth path data t).options.params = none ∧
    (Session.delete auth path t).options.json = some [] ∧
    (Session.delete auth path t).options.params = none :=
  ⟨rfl, rfl, rfl, rfl, rfl, rfl, rfl, rfl⟩

end Flowdock
